import Mathlib

/-!
Shallow embedding of
`visualvm/libs.profiler/lib.profiler/native/src-jdk15/common_functions.c`,
the JVMTI profiler-agent bootstrap of VisualVM.

The C file talks to the host JVM through the JVMTI interface.  Each JVMTI
call site is modelled by recording an event in a trace and by reading the
host's reply from an explicit `Host` record that fixes, per call site, the
`jvmtiError` code the host returns.  A C `assert(res == JVMTI_ERROR_NONE)`
is modelled by aborting the run (result `none`) when the checked code is
non-zero; the call itself has already been emitted into the trace, exactly
as in C the call happens before the assert.

Machine integers: `jvmtiError` codes are small non-negative enum values and
are modelled as `Nat`; the `jint` values returned by the entry points
(`JNI_VERSION_1_2`, `0`, `-1`) are modelled as `Int`.  No arithmetic in the
source can overflow.
-/

set_option maxHeartbeats 1000000

namespace ProfilerInterface

/-- The six handler functions installed into `jvmtiEventCallbacks` by the
source (five in `initializeJVMTI`, plus `vm_init_hook` in `Agent_OnLoad`).
Their bodies live in other translation units and are opaque here. -/
inductive HookId where
  | class_file_load_hook
  | native_method_bind_hook
  | monitor_contended_enter_hook
  | monitor_contended_entered_hook
  | vm_object_alloc
  | vm_init_hook
deriving DecidableEq, Repr

/-- The `jvmtiCapabilities` bitset.  The eight bits the agent sets are named
fields; every other bit of the struct is collected in `otherBits`, which the
agent never touches (it only sets the eight named bits on top of whatever
`GetCapabilities` reported). -/
structure jvmtiCapabilities where
  can_redefine_classes : Bool
  can_retransform_classes : Bool
  can_generate_garbage_collection_events : Bool
  can_generate_native_method_bind_events : Bool
  can_generate_monitor_events : Bool
  can_get_current_thread_cpu_time : Bool
  can_generate_vm_object_alloc_events : Bool
  can_get_monitor_info : Bool
  otherBits : Nat
deriving DecidableEq, Repr

/-- The `jvmtiEventCallbacks` struct: one slot per event kind used by the
agent.  `none` models a zeroed (unset) slot. -/
structure jvmtiEventCallbacks where
  ClassFileLoadHook : Option HookId
  NativeMethodBind : Option HookId
  MonitorContendedEnter : Option HookId
  MonitorContendedEntered : Option HookId
  VMObjectAlloc : Option HookId
  VMInit : Option HookId
deriving DecidableEq, Repr

/-- The `jvmtiEvent` constants passed to `SetEventNotificationMode`. -/
inductive jvmtiEvent where
  | CLASS_FILE_LOAD_HOOK
  | NATIVE_METHOD_BIND
  | MONITOR_CONTENDED_ENTER
  | MONITOR_CONTENDED_ENTERED
  | VM_INIT
deriving DecidableEq, Repr

/-- One observable step of the agent: a JVMTI call, a line printed to a
standard stream, a `memset` of the callback struct, or the call into the
external option parser.  `stderrUsage` is the `report_usage()` call; it
carries the three lines that function prints to standard error. -/
inductive Call where
  | getEnv
  | getCapabilities
  | addCapabilities (req : jvmtiCapabilities)
  | stderrLine (s : String)
  | stderrUsage (lines : List String)
  | stdoutLine (s : String)
  | zeroCallbacks
  | setEventCallbacks (tbl : jvmtiEventCallbacks)
  | enableNotification (e : jvmtiEvent)
  | parseOptions (s : String)
deriving DecidableEq, Repr

/-- The host JVM's replies, one field per JVMTI call site of the source.
`capas` is what `GetCapabilities` writes into the out-parameter; the `…Err`
fields are the `jvmtiError` codes returned at each call site
(`0 = JVMTI_ERROR_NONE`). -/
structure Host where
  capas : jvmtiCapabilities
  getCapabilitiesErr : Nat
  addCapabilitiesErr : Nat
  setEventCallbacksErr : Nat
  enableClassFileLoadErr : Nat
  enableNativeMethodBindErr : Nat
  enableMonitorEnterErr : Nat
  enableMonitorEnteredErr : Nat
  setEventCallbacksVMInitErr : Nat
  enableVMInitErr : Nat
deriving DecidableEq, Repr

/-- The agent's process-wide globals: `_jvmti` (modelled as a flag, `true`
iff the handle is non-NULL) and the contents of `_jvmti_callbacks_static`. -/
structure AgentState where
  jvmti : Bool
  callbacks : jvmtiEventCallbacks
deriving DecidableEq, Repr

/-- A zeroed `jvmtiEventCallbacks` struct (the result of the `memset`, and
the C-runtime zero-initialization of the static). -/
def emptyCallbacks : jvmtiEventCallbacks :=
  { ClassFileLoadHook := none, NativeMethodBind := none,
    MonitorContendedEnter := none, MonitorContendedEntered := none,
    VMObjectAlloc := none, VMInit := none }

/-- The agent's globals at process start: `_jvmti == NULL` and a zeroed
static callback struct. -/
def initialState : AgentState :=
  { jvmti := false, callbacks := emptyCallbacks }

/-- The three lines `report_usage()` prints to standard error. -/
def usage_text : List String :=
  ["Profiler Agent: -agentpath:<PATH>/profilerinterface should be called with two parameters:",
   "Profiler Agent: path to Profiler agent libraries and port number, separated by comma, for example:",
   "Profiler Agent: java -agentpath:/mypath/profilerinterface=/home/me/nb-profiler-server/profiler-ea-libs,5500"]

/-- `report_usage()`: prints the usage text to standard error. -/
def report_usage : List Call := [Call.stderrUsage usage_text]

/-- The message printed to standard error when `AddCapabilities` fails,
with the raw `jvmtiError` code appended (`%d` in the C format string). -/
def capasErrMsg (err : Nat) : String :=
  "Profiler Agent Error: Failed to obtain JVMTI capabilities, error code: " ++ toString err

/-- `initializeJVMTI(JavaVM *jvm)`.  `v16` is the compile-time
`JNI_VERSION_1_6` conditional (whether the host interface version supports
class retransformation).  Returns the trace of calls and the resulting
globals, or `none` when one of the `assert(… == JVMTI_ERROR_NONE)` checks
fails and aborts the run. -/
def initializeJVMTI (host : Host) (v16 : Bool) (st : AgentState) :
    List Call × Option AgentState :=
  let st := { st with jvmti := true }
  let capas := host.capas
  let t := [Call.getEnv, Call.getCapabilities]
  if host.getCapabilitiesErr = 0 then
    let capas := { capas with can_redefine_classes := true }
    let capas := if v16 then { capas with can_retransform_classes := true } else capas
    let capas := { capas with can_generate_garbage_collection_events := true }
    let capas := { capas with can_generate_native_method_bind_events := true }
    let capas := { capas with can_generate_monitor_events := true }
    let capas := { capas with can_get_current_thread_cpu_time := true }
    let capas := { capas with can_generate_vm_object_alloc_events := true }
    let capas := { capas with can_get_monitor_info := true }
    let t := t ++ [Call.addCapabilities capas]
    let t := if host.addCapabilitiesErr = 0 then t
             else t ++ [Call.stderrLine (capasErrMsg host.addCapabilitiesErr)]
    let st := { st with callbacks := emptyCallbacks }
    let t := t ++ [Call.zeroCallbacks]
    let cb := { emptyCallbacks with
                  ClassFileLoadHook := some HookId.class_file_load_hook,
                  NativeMethodBind := some HookId.native_method_bind_hook,
                  MonitorContendedEnter := some HookId.monitor_contended_enter_hook,
                  MonitorContendedEntered := some HookId.monitor_contended_entered_hook,
                  VMObjectAlloc := some HookId.vm_object_alloc }
    let st := { st with callbacks := cb }
    let t := t ++ [Call.setEventCallbacks cb]
    if host.setEventCallbacksErr = 0 then
      let t := t ++ [Call.enableNotification jvmtiEvent.CLASS_FILE_LOAD_HOOK]
      if host.enableClassFileLoadErr = 0 then
        let t := t ++ [Call.enableNotification jvmtiEvent.NATIVE_METHOD_BIND]
        if host.enableNativeMethodBindErr = 0 then
          let t := t ++ [Call.enableNotification jvmtiEvent.MONITOR_CONTENDED_ENTER]
          if host.enableMonitorEnterErr = 0 then
            let t := t ++ [Call.enableNotification jvmtiEvent.MONITOR_CONTENDED_ENTERED]
            if host.enableMonitorEnteredErr = 0 then
              (t, some st)
            else (t, none)
          else (t, none)
        else (t, none)
      else (t, none)
    else (t, none)
  else (t, none)

/-- `JNI_VERSION_1_2 == 0x00010002`, the value `JNI_OnLoad` returns. -/
def JNI_VERSION_1_2 : Int := 65538

/-- `JNI_OnLoad(JavaVM *jvm, void *reserved)`: the process-creation entry.
Guarded by `if (_jvmti == NULL)`. -/
def JNI_OnLoad (host : Host) (v16 : Bool) (st : AgentState) :
    List Call × Option (AgentState × Int) :=
  if st.jvmti = false then
    let t := [Call.stdoutLine "Profiler Agent: JNI OnLoad Initializing..."]
    match initializeJVMTI host v16 st with
    | (ti, none) => (t ++ ti, none)
    | (ti, some st1) =>
        (t ++ ti ++ [Call.stdoutLine "Profiler Agent: JNI OnLoad Initialized successfully"],
         some (st1, JNI_VERSION_1_2))
  else
    ([], some (st, JNI_VERSION_1_2))

/-- The line `Agent_OnLoad` prints about its `options` argument. -/
def optionsLine : Option String → Call
  | some s => Call.stdoutLine ("Profiler Agent: Options: >" ++ s ++ "<")
  | none => Call.stdoutLine "Profiler Agent: No options"

/-- `Agent_OnLoad(JavaVM *jvm, char *options, void *reserved)`: the
dynamic-attach entry.  `options == NULL` is modelled as `none`.
`strpbrk(options, ",") == NULL` is `s.data.contains ',' = false`
(no occurrence of the comma character in the string).  The results
of the `SetEventCallbacks` / `SetEventNotificationMode` calls on the
well-formed-options path are read from the host and discarded, exactly as
the source discards them. -/
def Agent_OnLoad (host : Host) (v16 : Bool) (options : Option String) (st : AgentState) :
    List Call × Option (AgentState × Int) :=
  let t0 := [Call.stdoutLine "Profiler Agent: Initializing..."]
  match initializeJVMTI host v16 st with
  | (ti, none) => (t0 ++ ti, none)
  | (ti, some st1) =>
    let t1 := t0 ++ ti ++ [optionsLine options]
    match options with
    | some s =>
      if 0 < s.length then
        if s.data.contains ',' = false then
          (t1 ++ report_usage, some (st1, -1))
        else
          let cb := { st1.callbacks with VMInit := some HookId.vm_init_hook }
          let st2 := { st1 with callbacks := cb }
          let t2 := t1 ++ [Call.parseOptions s, Call.setEventCallbacks cb,
                           Call.enableNotification jvmtiEvent.VM_INIT]
          (t2 ++ [Call.stdoutLine "Profiler Agent: Initialized successfully"],
           some (st2, 0))
      else
        (t1 ++ [Call.stdoutLine "Profiler Agent: Initialized successfully"],
         some (st1, 0))
    | none =>
        (t1 ++ [Call.stdoutLine "Profiler Agent: Initialized successfully"],
         some (st1, 0))

/-! ### Derived notions used by the statements -/

/-- The five-slot callback table `initializeJVMTI` registers. -/
def populatedCallbacks : jvmtiEventCallbacks :=
  { ClassFileLoadHook := some HookId.class_file_load_hook,
    NativeMethodBind := some HookId.native_method_bind_hook,
    MonitorContendedEnter := some HookId.monitor_contended_enter_hook,
    MonitorContendedEntered := some HookId.monitor_contended_entered_hook,
    VMObjectAlloc := some HookId.vm_object_alloc,
    VMInit := none }

/-- The table after `Agent_OnLoad` additionally arms the `VMInit` slot. -/
def populatedCallbacksVMInit : jvmtiEventCallbacks :=
  { populatedCallbacks with VMInit := some HookId.vm_init_hook }

/-- The capability set `initializeJVMTI` requests: the host's currently
reported set with the agent's eight bits switched on (retransformation only
when the interface version supports it). -/
def requestedCapabilities (v16 : Bool) (c : jvmtiCapabilities) : jvmtiCapabilities :=
  { c with can_redefine_classes := true,
           can_retransform_classes := (if v16 then true else c.can_retransform_classes),
           can_generate_garbage_collection_events := true,
           can_generate_native_method_bind_events := true,
           can_generate_monitor_events := true,
           can_get_current_thread_cpu_time := true,
           can_generate_vm_object_alloc_events := true,
           can_get_monitor_info := true }

/-- All JVMTI results whose codes `initializeJVMTI` asserts are
`JVMTI_ERROR_NONE` (the `AddCapabilities` result is deliberately absent:
its failure is tolerated, and so are the two results the
well-formed-options path of `Agent_OnLoad` discards). -/
def initOK (h : Host) : Prop :=
  h.getCapabilitiesErr = 0 ∧ h.setEventCallbacksErr = 0 ∧
  h.enableClassFileLoadErr = 0 ∧ h.enableNativeMethodBindErr = 0 ∧
  h.enableMonitorEnterErr = 0 ∧ h.enableMonitorEnteredErr = 0

instance (h : Host) : Decidable (initOK h) := by
  unfold initOK; infer_instance

/-- Is this call an `AddCapabilities` negotiation? -/
def isAddCaps : Call → Bool
  | Call.addCapabilities _ => true
  | _ => false

/-- Number of capability negotiations in a trace. -/
def addCapsCount (t : List Call) : Nat := t.countP isAddCaps

/-- The capability sets passed to `AddCapabilities`, in order. -/
def addCapsList (t : List Call) : List jvmtiCapabilities :=
  t.filterMap fun c => match c with
    | Call.addCapabilities req => some req
    | _ => none

/-- The callback tables passed to `SetEventCallbacks`, in order. -/
def regTables (t : List Call) : List jvmtiEventCallbacks :=
  t.filterMap fun c => match c with
    | Call.setEventCallbacks tbl => some tbl
    | _ => none

/-- Is this call the call into the external option parser? -/
def isParse : Call → Bool
  | Call.parseOptions _ => true
  | _ => false

/-- Does the trace invoke the external option parser? -/
def hasParseEvent (t : List Call) : Bool := t.any isParse

/-- Is this call the `report_usage()` print? -/
def isUsage : Call → Bool
  | Call.stderrUsage _ => true
  | _ => false

/-- Does the trace print the usage message? -/
def printsUsage (t : List Call) : Bool := t.any isUsage

/-- Is this call the enabling of the VM_INIT notification? -/
def isEnableVMInit : Call → Bool
  | Call.enableNotification jvmtiEvent.VM_INIT => true
  | _ => false

/-- All five slots of `initializeJVMTI`'s table are populated. -/
def fullFive (tbl : jvmtiEventCallbacks) : Bool :=
  tbl.ClassFileLoadHook.isSome && tbl.NativeMethodBind.isSome &&
  tbl.MonitorContendedEnter.isSome && tbl.MonitorContendedEntered.isSome &&
  tbl.VMObjectAlloc.isSome

/-- Scans a trace with two latches — "the callback struct has been zeroed"
and "a fully-populated (five-slot) table has been registered after the
zeroing" — and demands that every `SetEventNotificationMode` enable call
happens only once the second latch is set. -/
def enablesAfterFullRegAux (zeroed regd : Bool) : List Call → Bool
  | [] => true
  | Call.zeroCallbacks :: rest => enablesAfterFullRegAux true regd rest
  | Call.setEventCallbacks tbl :: rest =>
      enablesAfterFullRegAux zeroed (regd || (zeroed && fullFive tbl)) rest
  | Call.enableNotification _ :: rest =>
      regd && enablesAfterFullRegAux zeroed regd rest
  | _ :: rest => enablesAfterFullRegAux zeroed regd rest

/-- No enable call before zero-initialization, full population and
registration of the callback table. -/
def enablesAfterFullReg (t : List Call) : Bool :=
  enablesAfterFullRegAux false false t

/-- The trace of an `initializeJVMTI` run in which every asserted call
succeeds (the `AddCapabilities` result `h.addCapabilitiesErr` is free). -/
def initTrace (h : Host) (v16 : Bool) : List Call :=
  [Call.getEnv, Call.getCapabilities,
   Call.addCapabilities (requestedCapabilities v16 h.capas)]
  ++ (if h.addCapabilitiesErr = 0 then []
      else [Call.stderrLine (capasErrMsg h.addCapabilitiesErr)])
  ++ [Call.zeroCallbacks, Call.setEventCallbacks populatedCallbacks,
      Call.enableNotification jvmtiEvent.CLASS_FILE_LOAD_HOOK,
      Call.enableNotification jvmtiEvent.NATIVE_METHOD_BIND,
      Call.enableNotification jvmtiEvent.MONITOR_CONTENDED_ENTER,
      Call.enableNotification jvmtiEvent.MONITOR_CONTENDED_ENTERED]

lemma initializeJVMTI_ok (h : Host) (v16 : Bool) (st : AgentState) (hok : initOK h) :
    initializeJVMTI h v16 st =
      (initTrace h v16, some { jvmti := true, callbacks := populatedCallbacks }) := by
  obtain ⟨h1, h2, h3, h4, h5, h6⟩ := hok
  cases v16 <;>
    simp [initializeJVMTI, initTrace, requestedCapabilities, populatedCallbacks,
          emptyCallbacks, h1, h2, h3, h4, h5, h6] <;>
    split_ifs <;> simp

/-- A host whose capability set is all-clear and that answers every call
with `JVMTI_ERROR_NONE`. -/
def goodHost : Host :=
  { capas := { can_redefine_classes := false, can_retransform_classes := false,
               can_generate_garbage_collection_events := false,
               can_generate_native_method_bind_events := false,
               can_generate_monitor_events := false,
               can_get_current_thread_cpu_time := false,
               can_generate_vm_object_alloc_events := false,
               can_get_monitor_info := false, otherBits := 0 },
    getCapabilitiesErr := 0, addCapabilitiesErr := 0, setEventCallbacksErr := 0,
    enableClassFileLoadErr := 0, enableNativeMethodBindErr := 0,
    enableMonitorEnterErr := 0, enableMonitorEnteredErr := 0,
    setEventCallbacksVMInitErr := 0, enableVMInitErr := 0 }

/-- `goodHost`, except that `AddCapabilities` fails with code 98. -/
def badCapasHost : Host := { goodHost with addCapabilitiesErr := 98 }

/-- C1: if `AddCapabilities` fails, the agent prints an error message with
the raw failure code to standard error and still registers the callback
table and enables all four event notifications; the negotiation failure
never aborts initialization. -/
theorem claim_C1 (h : Host) (v16 : Bool) (st : AgentState)
    (hok : initOK h) (hfail : h.addCapabilitiesErr ≠ 0) :
    Call.stderrLine (capasErrMsg h.addCapabilitiesErr) ∈ (initializeJVMTI h v16 st).1 ∧
    Call.setEventCallbacks populatedCallbacks ∈ (initializeJVMTI h v16 st).1 ∧
    Call.enableNotification jvmtiEvent.CLASS_FILE_LOAD_HOOK ∈ (initializeJVMTI h v16 st).1 ∧
    Call.enableNotification jvmtiEvent.NATIVE_METHOD_BIND ∈ (initializeJVMTI h v16 st).1 ∧
    Call.enableNotification jvmtiEvent.MONITOR_CONTENDED_ENTER ∈ (initializeJVMTI h v16 st).1 ∧
    Call.enableNotification jvmtiEvent.MONITOR_CONTENDED_ENTERED ∈ (initializeJVMTI h v16 st).1 ∧
    (initializeJVMTI h v16 st).2 = some { jvmti := true, callbacks := populatedCallbacks } := by
  rw [initializeJVMTI_ok h v16 st hok]
  simp [initTrace, hfail]

/-- C1 at a concrete input: `badCapasHost` fails `AddCapabilities` with
code 98 and initialization still completes with everything enabled. -/
theorem claim_C1_witness :
    initOK badCapasHost ∧ badCapasHost.addCapabilitiesErr ≠ 0 ∧
    (Call.stderrLine (capasErrMsg badCapasHost.addCapabilitiesErr) ∈
        (initializeJVMTI badCapasHost true initialState).1 ∧
     Call.setEventCallbacks populatedCallbacks ∈
        (initializeJVMTI badCapasHost true initialState).1 ∧
     Call.enableNotification jvmtiEvent.CLASS_FILE_LOAD_HOOK ∈
        (initializeJVMTI badCapasHost true initialState).1 ∧
     Call.enableNotification jvmtiEvent.NATIVE_METHOD_BIND ∈
        (initializeJVMTI badCapasHost true initialState).1 ∧
     Call.enableNotification jvmtiEvent.MONITOR_CONTENDED_ENTER ∈
        (initializeJVMTI badCapasHost true initialState).1 ∧
     Call.enableNotification jvmtiEvent.MONITOR_CONTENDED_ENTERED ∈
        (initializeJVMTI badCapasHost true initialState).1 ∧
     (initializeJVMTI badCapasHost true initialState).2 =
        some { jvmti := true, callbacks := populatedCallbacks }) :=
  ⟨by decide, by decide,
   claim_C1 badCapasHost true initialState (by decide) (by decide)⟩

lemma Agent_OnLoad_usage (h : Host) (v16 : Bool) (s : String) (st : AgentState)
    (hok : initOK h) (hs : 0 < s.length) (hc : s.data.contains ',' = false) :
    Agent_OnLoad h v16 (some s) st =
      ([Call.stdoutLine "Profiler Agent: Initializing..."] ++ initTrace h v16
         ++ [optionsLine (some s)] ++ report_usage,
       some ({ jvmti := true, callbacks := populatedCallbacks }, -1)) := by
  unfold Agent_OnLoad
  rw [initializeJVMTI_ok h v16 st hok]
  have hc2 : ',' ∉ s.data := by simpa using hc
  simp [hs, hc2]

lemma Agent_OnLoad_full (h : Host) (v16 : Bool) (s : String) (st : AgentState)
    (hok : initOK h) (hs : 0 < s.length) (hc : s.data.contains ',' = true) :
    Agent_OnLoad h v16 (some s) st =
      ([Call.stdoutLine "Profiler Agent: Initializing..."] ++ initTrace h v16
         ++ [optionsLine (some s),
             Call.parseOptions s,
             Call.setEventCallbacks populatedCallbacksVMInit,
             Call.enableNotification jvmtiEvent.VM_INIT,
             Call.stdoutLine "Profiler Agent: Initialized successfully"],
       some ({ jvmti := true, callbacks := populatedCallbacksVMInit }, 0)) := by
  unfold Agent_OnLoad
  rw [initializeJVMTI_ok h v16 st hok]
  have hc2 : ',' ∈ s.data := by simpa using hc
  simp [hs, hc2, populatedCallbacksVMInit, populatedCallbacks]

lemma Agent_OnLoad_calibration (h : Host) (v16 : Bool) (options : Option String)
    (st : AgentState) (hok : initOK h)
    (hopts : options = none ∨ options = some "") :
    Agent_OnLoad h v16 options st =
      ([Call.stdoutLine "Profiler Agent: Initializing..."] ++ initTrace h v16
         ++ [optionsLine options,
             Call.stdoutLine "Profiler Agent: Initialized successfully"],
       some ({ jvmti := true, callbacks := populatedCallbacks }, 0)) := by
  unfold Agent_OnLoad
  rw [initializeJVMTI_ok h v16 st hok]
  rcases hopts with rfl | rfl <;> simp

/-- No `Call.parseOptions` event anywhere in `initTrace`. -/
lemma initTrace_any_isParse (h : Host) (v16 : Bool) :
    (initTrace h v16).any isParse = false := by
  rcases eq_or_ne h.addCapabilitiesErr 0 with ha | ha <;>
    simp [initTrace, ha, isParse]

/-- No usage message anywhere in `initTrace`. -/
lemma initTrace_any_isUsage (h : Host) (v16 : Bool) :
    (initTrace h v16).any isUsage = false := by
  rcases eq_or_ne h.addCapabilitiesErr 0 with ha | ha <;>
    simp [initTrace, ha, isUsage]

/-- No VM_INIT enable anywhere in `initTrace`. -/
lemma initTrace_countP_vminit (h : Host) (v16 : Bool) :
    (initTrace h v16).countP isEnableVMInit = 0 := by
  rcases eq_or_ne h.addCapabilitiesErr 0 with ha | ha <;>
    simp [initTrace, ha, isEnableVMInit, List.countP_cons, List.countP_nil,
      List.countP_append]

/-- No VM_INIT enable anywhere in `initTrace`. -/
lemma vminit_notin_initTrace (h : Host) (v16 : Bool) :
    Call.enableNotification jvmtiEvent.VM_INIT ∉ initTrace h v16 := by
  rcases eq_or_ne h.addCapabilitiesErr 0 with ha | ha <;>
    simp [initTrace, ha]

/-- C3: given non-empty options with no comma, `Agent_OnLoad` prints the
usage message to standard error and returns −1, without invoking the
option parser and without arming the deferred VMInit hook; the agent
itself completes (no abort / process termination). -/
theorem claim_C3 (h : Host) (v16 : Bool) (s : String) (st : AgentState)
    (hok : initOK h) (hs : 0 < s.length) (hc : s.data.contains ',' = false) :
    Call.stderrUsage usage_text ∈ (Agent_OnLoad h v16 (some s) st).1 ∧
    hasParseEvent (Agent_OnLoad h v16 (some s) st).1 = false ∧
    Call.enableNotification jvmtiEvent.VM_INIT ∉ (Agent_OnLoad h v16 (some s) st).1 ∧
    (Agent_OnLoad h v16 (some s) st).2 =
      some ({ jvmti := true, callbacks := populatedCallbacks }, -1) ∧
    populatedCallbacks.VMInit = none := by
  rw [Agent_OnLoad_usage h v16 s st hok hs hc]
  refine ⟨by simp [report_usage], ?_, ?_, rfl, rfl⟩
  · simp [hasParseEvent, List.any_append, initTrace_any_isParse h v16,
      isParse, report_usage, optionsLine]
  · simp [report_usage, optionsLine, vminit_notin_initTrace h v16]

/-- C3 at the concrete input of the spec: option string `"5500"`. -/
theorem claim_C3_witness :
    initOK goodHost ∧ 0 < "5500".length ∧ ("5500".data.contains ',' = false) ∧
    (Call.stderrUsage usage_text ∈ (Agent_OnLoad goodHost true (some "5500") initialState).1 ∧
     hasParseEvent (Agent_OnLoad goodHost true (some "5500") initialState).1 = false ∧
     Call.enableNotification jvmtiEvent.VM_INIT ∉
        (Agent_OnLoad goodHost true (some "5500") initialState).1 ∧
     (Agent_OnLoad goodHost true (some "5500") initialState).2 =
        some ({ jvmti := true, callbacks := populatedCallbacks }, -1) ∧
     populatedCallbacks.VMInit = none) :=
  ⟨by decide, by decide, by decide,
   claim_C3 goodHost true "5500" initialState (by decide) (by decide) (by decide)⟩

/-- C4: given non-empty options containing a comma, `Agent_OnLoad` passes
the string to the external option parser, arms exactly one VMInit
notification, registers the table with the VMInit slot armed, prints no
usage message, and returns success (0); extra fields beyond the first
comma are not rejected (the only condition consulted is comma presence). -/
theorem claim_C4 (h : Host) (v16 : Bool) (s : String) (st : AgentState)
    (hok : initOK h) (hs : 0 < s.length) (hc : s.data.contains ',' = true) :
    Call.parseOptions s ∈ (Agent_OnLoad h v16 (some s) st).1 ∧
    ((Agent_OnLoad h v16 (some s) st).1).countP isEnableVMInit = 1 ∧
    printsUsage (Agent_OnLoad h v16 (some s) st).1 = false ∧
    (Agent_OnLoad h v16 (some s) st).2 =
      some ({ jvmti := true, callbacks := populatedCallbacksVMInit }, 0) ∧
    populatedCallbacksVMInit.VMInit = some HookId.vm_init_hook := by
  rw [Agent_OnLoad_full h v16 s st hok hs hc]
  refine ⟨by simp, ?_, ?_, rfl, rfl⟩
  · simp [List.countP_append, List.countP_cons, List.countP_nil,
      initTrace_countP_vminit h v16, isEnableVMInit, optionsLine]
  · simp [printsUsage, List.any_append, initTrace_any_isUsage h v16,
      isUsage, optionsLine]

/-- C4 at the concrete inputs of the spec: `"/home/me/server,5500"` and
`"/home/me/server,5500,extra"` (extra fields not rejected). -/
theorem claim_C4_witness :
    (initOK goodHost ∧ 0 < "/home/me/server,5500".length ∧
       ("/home/me/server,5500".data.contains ',' = true) ∧
     (Call.parseOptions "/home/me/server,5500" ∈
        (Agent_OnLoad goodHost true (some "/home/me/server,5500") initialState).1 ∧
      ((Agent_OnLoad goodHost true (some "/home/me/server,5500") initialState).1).countP isEnableVMInit = 1 ∧
      printsUsage (Agent_OnLoad goodHost true (some "/home/me/server,5500") initialState).1 = false ∧
      (Agent_OnLoad goodHost true (some "/home/me/server,5500") initialState).2 =
        some ({ jvmti := true, callbacks := populatedCallbacksVMInit }, 0) ∧
      populatedCallbacksVMInit.VMInit = some HookId.vm_init_hook)) ∧
    (Call.parseOptions "/home/me/server,5500,extra" ∈
        (Agent_OnLoad goodHost true (some "/home/me/server,5500,extra") initialState).1 ∧
     ((Agent_OnLoad goodHost true (some "/home/me/server,5500,extra") initialState).1).countP isEnableVMInit = 1 ∧
     printsUsage (Agent_OnLoad goodHost true (some "/home/me/server,5500,extra") initialState).1 = false ∧
     (Agent_OnLoad goodHost true (some "/home/me/server,5500,extra") initialState).2 =
        some ({ jvmti := true, callbacks := populatedCallbacksVMInit }, 0) ∧
     populatedCallbacksVMInit.VMInit = some HookId.vm_init_hook) :=
  ⟨⟨by decide, by decide, by decide,
    claim_C4 goodHost true "/home/me/server,5500" initialState (by decide) (by decide) (by decide)⟩,
   claim_C4 goodHost true "/home/me/server,5500,extra" initialState (by decide) (by decide) (by decide)⟩

/-- C5: absent (NULL) or empty options are a calibration run: the parser
is not invoked, no VMInit hook is armed, no usage message is printed, and
the entry returns success (0). -/
theorem claim_C5 (h : Host) (v16 : Bool) (options : Option String) (st : AgentState)
    (hok : initOK h) (hopts : options = none ∨ options = some "") :
    hasParseEvent (Agent_OnLoad h v16 options st).1 = false ∧
    Call.enableNotification jvmtiEvent.VM_INIT ∉ (Agent_OnLoad h v16 options st).1 ∧
    printsUsage (Agent_OnLoad h v16 options st).1 = false ∧
    (Agent_OnLoad h v16 options st).2 =
      some ({ jvmti := true, callbacks := populatedCallbacks }, 0) ∧
    populatedCallbacks.VMInit = none := by
  rw [Agent_OnLoad_calibration h v16 options st hok hopts]
  rcases hopts with rfl | rfl <;>
    refine ⟨?_, ?_, ?_, rfl, rfl⟩ <;>
    simp [hasParseEvent, printsUsage, List.any_append, initTrace_any_isParse h v16,
      initTrace_any_isUsage h v16, isParse, isUsage, optionsLine,
      vminit_notin_initTrace h v16]

/-- C5 at the concrete inputs of the spec: `none` (NULL) and `""`. -/
theorem claim_C5_witness :
    (initOK goodHost ∧ ((none : Option String) = none ∨ (none : Option String) = some "") ∧
     (hasParseEvent (Agent_OnLoad goodHost true none initialState).1 = false ∧
      Call.enableNotification jvmtiEvent.VM_INIT ∉ (Agent_OnLoad goodHost true none initialState).1 ∧
      printsUsage (Agent_OnLoad goodHost true none initialState).1 = false ∧
      (Agent_OnLoad goodHost true none initialState).2 =
        some ({ jvmti := true, callbacks := populatedCallbacks }, 0) ∧
      populatedCallbacks.VMInit = none)) ∧
    (hasParseEvent (Agent_OnLoad goodHost true (some "") initialState).1 = false ∧
     Call.enableNotification jvmtiEvent.VM_INIT ∉ (Agent_OnLoad goodHost true (some "") initialState).1 ∧
     printsUsage (Agent_OnLoad goodHost true (some "") initialState).1 = false ∧
     (Agent_OnLoad goodHost true (some "") initialState).2 =
       some ({ jvmti := true, callbacks := populatedCallbacks }, 0) ∧
     populatedCallbacks.VMInit = none) :=
  ⟨⟨by decide, Or.inl rfl,
    claim_C5 goodHost true none initialState (by decide) (Or.inl rfl)⟩,
   claim_C5 goodHost true (some "") initialState (by decide) (Or.inr rfl)⟩

/-- `initTrace` performs exactly one capability negotiation. -/
lemma initTrace_countP_addCaps (h : Host) (v16 : Bool) :
    (initTrace h v16).countP isAddCaps = 1 := by
  rcases eq_or_ne h.addCapabilitiesErr 0 with ha | ha <;>
    simp [initTrace, ha, isAddCaps, List.countP_cons, List.countP_nil,
      List.countP_append]

/-- C7: the process-creation entry is idempotence-guarded: from a state
with no instrumentation handle it runs initialization with exactly one
capability negotiation, and a second invocation from the resulting state
is a complete no-op (empty trace, no negotiation, same state, same return
value `JNI_VERSION_1_2`). -/
theorem claim_C7 (h : Host) (v16 : Bool) (st : AgentState)
    (hok : initOK h) (hj : st.jvmti = false) :
    addCapsCount (JNI_OnLoad h v16 st).1 = 1 ∧
    (JNI_OnLoad h v16 st).2 =
      some ({ jvmti := true, callbacks := populatedCallbacks }, JNI_VERSION_1_2) ∧
    JNI_OnLoad h v16 { jvmti := true, callbacks := populatedCallbacks } =
      ([], some ({ jvmti := true, callbacks := populatedCallbacks }, JNI_VERSION_1_2)) ∧
    addCapsCount ([] : List Call) = 0 := by
  unfold JNI_OnLoad
  rw [initializeJVMTI_ok h v16 st hok]
  refine ⟨?_, ?_, ?_, rfl⟩
  · simp [hj, addCapsCount, List.countP_append, List.countP_cons, List.countP_nil,
      isAddCaps, initTrace_countP_addCaps h v16]
  · simp [hj]
  · simp

/-- C7 at a concrete input: two consecutive `JNI_OnLoad` calls from
process start yield exactly one negotiation in total. -/
theorem claim_C7_witness :
    initOK goodHost ∧ initialState.jvmti = false ∧
    (addCapsCount (JNI_OnLoad goodHost true initialState).1 = 1 ∧
     (JNI_OnLoad goodHost true initialState).2 =
       some ({ jvmti := true, callbacks := populatedCallbacks }, JNI_VERSION_1_2) ∧
     JNI_OnLoad goodHost true { jvmti := true, callbacks := populatedCallbacks } =
       ([], some ({ jvmti := true, callbacks := populatedCallbacks }, JNI_VERSION_1_2)) ∧
     addCapsCount ([] : List Call) = 0) :=
  ⟨by decide, rfl, claim_C7 goodHost true initialState (by decide) rfl⟩

/-- C9: once `GetCapabilities` has reported the host's current set, the
negotiation issues exactly one `AddCapabilities` call, whose request is
the host's currently reported set with precisely the eight agent bits
switched on (retransformation only when the interface version supports
it); all other bits are passed through untouched. -/
theorem claim_C9 (h : Host) (v16 : Bool) (st : AgentState)
    (hg : h.getCapabilitiesErr = 0) :
    addCapsList (initializeJVMTI h v16 st).1 =
      [{ can_redefine_classes := true,
         can_retransform_classes := (if v16 then true else h.capas.can_retransform_classes),
         can_generate_garbage_collection_events := true,
         can_generate_native_method_bind_events := true,
         can_generate_monitor_events := true,
         can_get_current_thread_cpu_time := true,
         can_generate_vm_object_alloc_events := true,
         can_get_monitor_info := true,
         otherBits := h.capas.otherBits }] := by
  cases v16 <;>
    simp [initializeJVMTI, hg, addCapsList] <;>
    split_ifs <;> simp [addCapsList]

/-- C9 at a concrete input: `goodHost` (all-clear current set), with and
without retransformation support. -/
theorem claim_C9_witness :
    goodHost.getCapabilitiesErr = 0 ∧
    addCapsList (initializeJVMTI goodHost true initialState).1 =
      [{ can_redefine_classes := true,
         can_retransform_classes := (if true then true else goodHost.capas.can_retransform_classes),
         can_generate_garbage_collection_events := true,
         can_generate_native_method_bind_events := true,
         can_generate_monitor_events := true,
         can_get_current_thread_cpu_time := true,
         can_generate_vm_object_alloc_events := true,
         can_get_monitor_info := true,
         otherBits := goodHost.capas.otherBits }] ∧
    addCapsList (initializeJVMTI goodHost false initialState).1 =
      [{ can_redefine_classes := true,
         can_retransform_classes := (if false then true else goodHost.capas.can_retransform_classes),
         can_generate_garbage_collection_events := true,
         can_generate_native_method_bind_events := true,
         can_generate_monitor_events := true,
         can_get_current_thread_cpu_time := true,
         can_generate_vm_object_alloc_events := true,
         can_get_monitor_info := true,
         otherBits := goodHost.capas.otherBits }] :=
  ⟨rfl, claim_C9 goodHost true initialState rfl,
   claim_C9 goodHost false initialState rfl⟩

/-- C10: on the usage-error path the initialization already performed is
kept: the negotiation happened, the five-slot table stays registered, all
four notifications stay enabled, and only option parsing and VMInit
arming are skipped (the VMInit slot stays unset in the final state). -/
theorem claim_C10 (h : Host) (v16 : Bool) (s : String) (st : AgentState)
    (hok : initOK h) (hs : 0 < s.length) (hc : s.data.contains ',' = false) :
    (Agent_OnLoad h v16 (some s) st).2 =
      some ({ jvmti := true, callbacks := populatedCallbacks }, -1) ∧
    Call.addCapabilities (requestedCapabilities v16 h.capas) ∈ (Agent_OnLoad h v16 (some s) st).1 ∧
    Call.setEventCallbacks populatedCallbacks ∈ (Agent_OnLoad h v16 (some s) st).1 ∧
    Call.enableNotification jvmtiEvent.CLASS_FILE_LOAD_HOOK ∈ (Agent_OnLoad h v16 (some s) st).1 ∧
    Call.enableNotification jvmtiEvent.NATIVE_METHOD_BIND ∈ (Agent_OnLoad h v16 (some s) st).1 ∧
    Call.enableNotification jvmtiEvent.MONITOR_CONTENDED_ENTER ∈ (Agent_OnLoad h v16 (some s) st).1 ∧
    Call.enableNotification jvmtiEvent.MONITOR_CONTENDED_ENTERED ∈ (Agent_OnLoad h v16 (some s) st).1 ∧
    hasParseEvent (Agent_OnLoad h v16 (some s) st).1 = false ∧
    populatedCallbacks.VMInit = none := by
  rw [Agent_OnLoad_usage h v16 s st hok hs hc]
  refine ⟨rfl, ?_, ?_, ?_, ?_, ?_, ?_, ?_, rfl⟩ <;>
    simp [initTrace, hasParseEvent, List.any_append, initTrace_any_isParse h v16,
      isParse, report_usage, optionsLine]

/-- C10 at the concrete input `"5500"`. -/
theorem claim_C10_witness :
    initOK goodHost ∧ 0 < "5500".length ∧ ("5500".data.contains ',' = false) ∧
    ((Agent_OnLoad goodHost true (some "5500") initialState).2 =
       some ({ jvmti := true, callbacks := populatedCallbacks }, -1) ∧
     Call.addCapabilities (requestedCapabilities true goodHost.capas) ∈
       (Agent_OnLoad goodHost true (some "5500") initialState).1 ∧
     Call.setEventCallbacks populatedCallbacks ∈
       (Agent_OnLoad goodHost true (some "5500") initialState).1 ∧
     Call.enableNotification jvmtiEvent.CLASS_FILE_LOAD_HOOK ∈
       (Agent_OnLoad goodHost true (some "5500") initialState).1 ∧
     Call.enableNotification jvmtiEvent.NATIVE_METHOD_BIND ∈
       (Agent_OnLoad goodHost true (some "5500") initialState).1 ∧
     Call.enableNotification jvmtiEvent.MONITOR_CONTENDED_ENTER ∈
       (Agent_OnLoad goodHost true (some "5500") initialState).1 ∧
     Call.enableNotification jvmtiEvent.MONITOR_CONTENDED_ENTERED ∈
       (Agent_OnLoad goodHost true (some "5500") initialState).1 ∧
     hasParseEvent (Agent_OnLoad goodHost true (some "5500") initialState).1 = false ∧
     populatedCallbacks.VMInit = none) :=
  ⟨by decide, by decide, by decide,
   claim_C10 goodHost true "5500" initialState (by decide) (by decide) (by decide)⟩

lemma initAux_none (h : Host) (v16 : Bool) (st : AgentState)
    (hnone : (initializeJVMTI h v16 st).2 = none) :
    enablesAfterFullRegAux false false (initializeJVMTI h v16 st).1 = true := by
  simp only [initializeJVMTI] at hnone ⊢
  split_ifs at hnone ⊢ <;> simp_all [enablesAfterFullRegAux, fullFive]

lemma initAux_some (h : Host) (v16 : Bool) (st : AgentState) (rest : List Call)
    (hsome : (initializeJVMTI h v16 st).2.isSome = true) :
    enablesAfterFullRegAux false false ((initializeJVMTI h v16 st).1 ++ rest) =
      enablesAfterFullRegAux true true rest := by
  simp only [initializeJVMTI] at hsome ⊢
  split_ifs at hsome ⊢ <;> simp_all [enablesAfterFullRegAux, fullFive]

/-- C2: in every execution of either entry point — any host replies, any
option string, any starting state — no `SetEventNotificationMode` enable
call occurs before the callback struct has been zeroed and a fully
populated (all five slots) table has been registered via
`SetEventCallbacks`. -/
theorem claim_C2 (h : Host) (v16 : Bool) (options : Option String) (st : AgentState) :
    enablesAfterFullReg (Agent_OnLoad h v16 options st).1 = true ∧
    enablesAfterFullReg (JNI_OnLoad h v16 st).1 = true := by
  constructor
  · unfold Agent_OnLoad
    rcases hinit : initializeJVMTI h v16 st with ⟨ti, r⟩
    cases r with
    | none =>
        have h0 := initAux_none h v16 st (by rw [hinit])
        rw [hinit] at h0
        simpa [enablesAfterFullReg, enablesAfterFullRegAux] using h0
    | some st1 =>
        have key : ∀ rest, enablesAfterFullRegAux false false (ti ++ rest) =
            enablesAfterFullRegAux true true rest := by
          intro rest
          have h0 := initAux_some h v16 st rest (by rw [hinit]; rfl)
          rwa [hinit] at h0
        rcases options with _ | s
        · simp [enablesAfterFullReg, enablesAfterFullRegAux, optionsLine, report_usage, key]
        · simp only [enablesAfterFullReg]
          split_ifs <;>
            simp [enablesAfterFullRegAux, key, report_usage, optionsLine]
  · unfold JNI_OnLoad
    by_cases hj : st.jvmti = false
    · rcases hinit : initializeJVMTI h v16 st with ⟨ti, r⟩
      cases r with
      | none =>
          have h0 := initAux_none h v16 st (by rw [hinit])
          rw [hinit] at h0
          simpa [hj, enablesAfterFullReg, enablesAfterFullRegAux] using h0
      | some st1 =>
          have key : ∀ rest, enablesAfterFullRegAux false false (ti ++ rest) =
              enablesAfterFullRegAux true true rest := by
            intro rest
            have h0 := initAux_some h v16 st rest (by rw [hinit]; rfl)
            rwa [hinit] at h0
          simp [hj, enablesAfterFullReg, enablesAfterFullRegAux, key]
    · simp [hj, enablesAfterFullReg, enablesAfterFullRegAux]

lemma regTables_init_none (h : Host) (v16 : Bool) (st : AgentState)
    (hnone : (initializeJVMTI h v16 st).2 = none) :
    regTables (initializeJVMTI h v16 st).1 = [] ∨
    regTables (initializeJVMTI h v16 st).1 = [populatedCallbacks] := by
  simp only [initializeJVMTI] at hnone ⊢
  split_ifs at hnone ⊢ <;>
    simp_all [regTables, populatedCallbacks, emptyCallbacks]

lemma init_some_eq (h : Host) (v16 : Bool) (st : AgentState) (st1 : AgentState)
    (hsome : (initializeJVMTI h v16 st).2 = some st1) :
    st1 = { jvmti := true, callbacks := populatedCallbacks } ∧
    regTables (initializeJVMTI h v16 st).1 = [populatedCallbacks] := by
  simp only [initializeJVMTI] at hsome ⊢
  split_ifs at hsome ⊢ <;>
    simp_all [regTables, populatedCallbacks, emptyCallbacks]

/-- C6, amended: in every run of either entry point the sequence of tables
handed to `SetEventCallbacks` is a prefix of
`[populatedCallbacks, populatedCallbacksVMInit]`: the five-slot table is
registered once during initialization, and only the well-formed-options
branch of `Agent_OnLoad` mutates the table once more — setting the VMInit
slot — and re-registers it once; no further registration or mutation ever
occurs (the process-creation entry never registers twice). -/
theorem claim_C6 (h : Host) (v16 : Bool) (options : Option String) (st : AgentState) :
    (regTables (JNI_OnLoad h v16 st).1 = [] ∨
     regTables (JNI_OnLoad h v16 st).1 = [populatedCallbacks]) ∧
    (regTables (Agent_OnLoad h v16 options st).1 = [] ∨
     regTables (Agent_OnLoad h v16 options st).1 = [populatedCallbacks] ∨
     regTables (Agent_OnLoad h v16 options st).1 =
       [populatedCallbacks, populatedCallbacksVMInit]) := by
  constructor
  · unfold JNI_OnLoad
    by_cases hj : st.jvmti = false
    · rcases hinit : initializeJVMTI h v16 st with ⟨ti, r⟩
      cases r with
      | none =>
          have h0 := regTables_init_none h v16 st (by rw [hinit])
          rw [hinit] at h0
          rcases h0 with h0 | h0 <;>
            simp_all [hj, regTables]
      | some st1 =>
          have h0 := init_some_eq h v16 st st1 (by rw [hinit])
          rw [hinit] at h0
          simp_all [hj, regTables]
    · simp [hj, regTables]
  · unfold Agent_OnLoad
    rcases hinit : initializeJVMTI h v16 st with ⟨ti, r⟩
    cases r with
    | none =>
        have h0 := regTables_init_none h v16 st (by rw [hinit])
        rw [hinit] at h0
        rcases h0 with h0 | h0 <;>
          simp_all [regTables]
    | some st1 =>
        have h0 := init_some_eq h v16 st st1 (by rw [hinit])
        rw [hinit] at h0
        obtain ⟨rfl, h0⟩ := h0
        rcases options with _ | s
        · simp_all [regTables, optionsLine]
        · by_cases hl : 0 < s.length
          · by_cases hc : s.data.contains ',' = false <;>
              simp_all [regTables, optionsLine, report_usage, populatedCallbacks,
                populatedCallbacksVMInit]
          · simp_all [regTables, optionsLine]

/-- C6, counterexample to the claim as stated: with a fully cooperative
host and option string `"/home/me/server,5500"`, a single `Agent_OnLoad`
run registers the callback table twice — first the five-slot table, then,
after mutating the VMInit slot, the six-slot table — so the table is both
re-registered and mutated after its first registration. -/
theorem claim_C6_counterexample :
    regTables (Agent_OnLoad goodHost true (some "/home/me/server,5500") initialState).1 =
      [populatedCallbacks, populatedCallbacksVMInit] ∧
    populatedCallbacks ≠ populatedCallbacksVMInit ∧
    ¬ (regTables (Agent_OnLoad goodHost true (some "/home/me/server,5500") initialState).1).length ≤ 1 := by
  refine ⟨?_, ?_, ?_⟩ <;> decide

lemma init_none_iff (h : Host) (v16 : Bool) (st : AgentState)
    (hg : h.getCapabilitiesErr = 0) :
    (initializeJVMTI h v16 st).2 = none ↔
      (h.setEventCallbacksErr ≠ 0 ∨ h.enableClassFileLoadErr ≠ 0 ∨
       h.enableNativeMethodBindErr ≠ 0 ∨ h.enableMonitorEnterErr ≠ 0 ∨
       h.enableMonitorEnteredErr ≠ 0) := by
  simp only [initializeJVMTI]
  split_ifs <;> simp_all

/-- C8, amended: inside `initializeJVMTI` the callback-table registration
and the four notification-enable calls each have their result asserted — a
non-zero code at any of them aborts initialization — but the registration
and notification-enable performed for the deferred VMInit hook in
`Agent_OnLoad` have their results discarded: whatever codes the host
returns there, the entry still completes and returns success. -/
theorem claim_C8 (h : Host) (v16 : Bool) (st : AgentState) (s : String)
    (hg : h.getCapabilitiesErr = 0) (hs : 0 < s.length)
    (hc : s.data.contains ',' = true) :
    ((initializeJVMTI h v16 st).2 = none ↔
      (h.setEventCallbacksErr ≠ 0 ∨ h.enableClassFileLoadErr ≠ 0 ∨
       h.enableNativeMethodBindErr ≠ 0 ∨ h.enableMonitorEnterErr ≠ 0 ∨
       h.enableMonitorEnteredErr ≠ 0)) ∧
    ((initializeJVMTI h v16 st).2 ≠ none →
      (Agent_OnLoad h v16 (some s) st).2 =
        some ({ jvmti := true, callbacks := populatedCallbacksVMInit }, 0)) := by
  have hiff := init_none_iff h v16 st hg
  refine ⟨hiff, fun hne => ?_⟩
  have hall : ¬ (h.setEventCallbacksErr ≠ 0 ∨ h.enableClassFileLoadErr ≠ 0 ∨
       h.enableNativeMethodBindErr ≠ 0 ∨ h.enableMonitorEnterErr ≠ 0 ∨
       h.enableMonitorEnteredErr ≠ 0) := fun hd => hne (hiff.2 hd)
  push_neg at hall
  obtain ⟨h2, h3, h4, h5, h6⟩ := hall
  rw [Agent_OnLoad_full h v16 s st ⟨hg, h2, h3, h4, h5, h6⟩ hs hc]

/-- A host that accepts everything except the two VMInit-path calls of
`Agent_OnLoad`, which it fails with code 99. -/
def vmInitFailHost : Host :=
  { goodHost with setEventCallbacksVMInitErr := 99, enableVMInitErr := 99 }

/-- C8, counterexample to the claim as stated: against `vmInitFailHost`
the VMInit registration and its notification-enable both fail (code 99),
yet `Agent_OnLoad` neither aborts nor reports — it completes and returns
success — so those two results are not asserted. -/
theorem claim_C8_counterexample :
    vmInitFailHost.setEventCallbacksVMInitErr ≠ 0 ∧
    vmInitFailHost.enableVMInitErr ≠ 0 ∧
    (Agent_OnLoad vmInitFailHost true (some "/home/me/server,5500") initialState).2 =
      some ({ jvmti := true, callbacks := populatedCallbacksVMInit }, 0) := by
  refine ⟨?_, ?_, ?_⟩ <;> decide

/-- C8 (amended) at a concrete input: `vmInitFailHost` and the option
string `"/home/me/server,5500"`. -/
theorem claim_C8_witness :
    vmInitFailHost.getCapabilitiesErr = 0 ∧ 0 < "/home/me/server,5500".length ∧
    ("/home/me/server,5500".data.contains ',' = true) ∧
    (((initializeJVMTI vmInitFailHost true initialState).2 = none ↔
       (vmInitFailHost.setEventCallbacksErr ≠ 0 ∨ vmInitFailHost.enableClassFileLoadErr ≠ 0 ∨
        vmInitFailHost.enableNativeMethodBindErr ≠ 0 ∨ vmInitFailHost.enableMonitorEnterErr ≠ 0 ∨
        vmInitFailHost.enableMonitorEnteredErr ≠ 0)) ∧
     ((initializeJVMTI vmInitFailHost true initialState).2 ≠ none →
       (Agent_OnLoad vmInitFailHost true (some "/home/me/server,5500") initialState).2 =
         some ({ jvmti := true, callbacks := populatedCallbacksVMInit }, 0))) :=
  ⟨by decide, by decide, by decide,
   claim_C8 vmInitFailHost true initialState "/home/me/server,5500"
     (by decide) (by decide) (by decide)⟩

end ProfilerInterface
